import Mathlib

/-!
Shallow embedding of the query fan-out / result-merge core of the
`2025_fieldlab7` repository (`src/mainEngine.py` and
`src/endpoint_health_check.py`), with theorems settling the spec claims
about it.

Conventions of the embedding:
* JSON-like Python values are modelled by `JValue`; Python dictionaries
  become association lists in insertion order (Python ≥ 3.7 semantics).
* Python exceptions are modelled by `Except PyErr`; a function that the
  source guarantees never to raise is total (no `Except` in its result).
* `None`-able Python strings become `Option String`; Python truthiness of
  such a value (`None` and `""` are falsy) is `pyTruthy?`.
* Network and filesystem effects are passed in as explicit environment
  functions (`net`, `env`, file contents), so the pure control flow of the
  source is what is being verified.
* Latencies are modelled as rationals: the source only ever compares a
  latency against the literal `2.0`, which is exact.
-/

namespace FieldLab

/-- A JSON-like Python value: strings, integers, booleans, `None`,
lists, and string-keyed dictionaries (in insertion order). -/
inductive JValue : Type
  | str (s : String)
  | int (n : Int)
  | bool (b : Bool)
  | null
  | arr (items : List JValue)
  | obj (fields : List (String × JValue))

/-- Structural boolean equality on `JValue` (the nested lists force a
hand-written definition). -/
def JValue.beq : JValue → JValue → Bool
  | .str a, .str b => a == b
  | .int a, .int b => a == b
  | .bool a, .bool b => a == b
  | .null, .null => true
  | .arr [], .arr [] => true
  | .arr (x :: xs), .arr (y :: ys) => JValue.beq x y && JValue.beq (.arr xs) (.arr ys)
  | .obj [], .obj [] => true
  | .obj ((k, v) :: xs), .obj ((l, w) :: ys) =>
    k == l && JValue.beq v w && JValue.beq (.obj xs) (.obj ys)
  | _, _ => false

instance : BEq JValue := ⟨JValue.beq⟩

theorem JValue.beq_refl : ∀ a : JValue, JValue.beq a a = true
  | .str _ => by simp [JValue.beq]
  | .int _ => by simp [JValue.beq]
  | .bool _ => by simp [JValue.beq]
  | .null => by simp [JValue.beq]
  | .arr [] => by simp [JValue.beq]
  | .arr (x :: xs) => by
    have h1 := JValue.beq_refl x
    have h2 := JValue.beq_refl (.arr xs)
    simp [JValue.beq, h1, h2]
  | .obj [] => by simp [JValue.beq]
  | .obj ((k, v) :: xs) => by
    have h1 := JValue.beq_refl v
    have h2 := JValue.beq_refl (.obj xs)
    simp [JValue.beq, h1, h2]

theorem JValue.eq_of_beq : ∀ a b : JValue, JValue.beq a b = true → a = b
  | .str _, .str _, h => by simpa [JValue.beq] using h
  | .int _, .int _, h => by simpa [JValue.beq] using h
  | .bool _, .bool _, h => by simpa [JValue.beq] using h
  | .null, .null, _ => rfl
  | .arr [], .arr [], _ => rfl
  | .arr (x :: xs), .arr (y :: ys), h => by
    simp only [JValue.beq, Bool.and_eq_true] at h
    have h1 := JValue.eq_of_beq x y h.1
    have h2 := JValue.eq_of_beq (.arr xs) (.arr ys) h.2
    have h2' : xs = ys := by simpa using h2
    rw [h1, h2']
  | .obj [], .obj [], _ => rfl
  | .obj ((k, v) :: xs), .obj ((l, w) :: ys), h => by
    simp only [JValue.beq, Bool.and_eq_true, beq_iff_eq] at h
    have h1 := JValue.eq_of_beq v w h.1.2
    have h2 := JValue.eq_of_beq (.obj xs) (.obj ys) h.2
    have h2' : xs = ys := by simpa using h2
    rw [h.1.1, h1, h2']
  | .str _, .int _, h => by simp [JValue.beq] at h
  | .str _, .bool _, h => by simp [JValue.beq] at h
  | .str _, .null, h => by simp [JValue.beq] at h
  | .str _, .arr _, h => by simp [JValue.beq] at h
  | .str _, .obj _, h => by simp [JValue.beq] at h
  | .int _, .str _, h => by simp [JValue.beq] at h
  | .int _, .bool _, h => by simp [JValue.beq] at h
  | .int _, .null, h => by simp [JValue.beq] at h
  | .int _, .arr _, h => by simp [JValue.beq] at h
  | .int _, .obj _, h => by simp [JValue.beq] at h
  | .bool _, .str _, h => by simp [JValue.beq] at h
  | .bool _, .int _, h => by simp [JValue.beq] at h
  | .bool _, .null, h => by simp [JValue.beq] at h
  | .bool _, .arr _, h => by simp [JValue.beq] at h
  | .bool _, .obj _, h => by simp [JValue.beq] at h
  | .null, .str _, h => by simp [JValue.beq] at h
  | .null, .int _, h => by simp [JValue.beq] at h
  | .null, .bool _, h => by simp [JValue.beq] at h
  | .null, .arr _, h => by simp [JValue.beq] at h
  | .null, .obj _, h => by simp [JValue.beq] at h
  | .arr _, .str _, h => by simp [JValue.beq] at h
  | .arr _, .int _, h => by simp [JValue.beq] at h
  | .arr _, .bool _, h => by simp [JValue.beq] at h
  | .arr _, .null, h => by simp [JValue.beq] at h
  | .arr _, .obj _, h => by simp [JValue.beq] at h
  | .arr [], .arr (_ :: _), h => by simp [JValue.beq] at h
  | .arr (_ :: _), .arr [], h => by simp [JValue.beq] at h
  | .obj _, .str _, h => by simp [JValue.beq] at h
  | .obj _, .int _, h => by simp [JValue.beq] at h
  | .obj _, .bool _, h => by simp [JValue.beq] at h
  | .obj _, .null, h => by simp [JValue.beq] at h
  | .obj _, .arr _, h => by simp [JValue.beq] at h
  | .obj [], .obj (_ :: _), h => by simp [JValue.beq] at h
  | .obj (_ :: _), .obj [], h => by simp [JValue.beq] at h

instance : DecidableEq JValue := fun a b =>
  if h : JValue.beq a b = true then .isTrue (JValue.eq_of_beq a b h)
  else .isFalse (fun he => h (he ▸ JValue.beq_refl a))

instance : LawfulBEq JValue where
  eq_of_beq h := JValue.eq_of_beq _ _ h
  rfl := JValue.beq_refl _

/-- Python exceptions that the merge code can raise. -/
inductive PyErr : Type
  | typeError
  | keyError (k : String)
  | attributeError
  | valueError
deriving Repr, DecidableEq

/-- Python truthiness of an optional string: `None` and `""` are falsy. -/
def pyTruthy? : Option String → Bool
  | none => false
  | some s => !s.isEmpty

/-- Boolean substring test on character lists, modelling Python's
`needle in haystack` for strings. -/
def containsSub (needle hay : List Char) : Bool :=
  (List.range (hay.length + 1)).any fun i => needle.isPrefixOf (hay.drop i)

namespace JValue

/-- Is the value a Python `dict`? -/
def isObj : JValue → Bool
  | .obj _ => true
  | _ => false

/-- Key lookup in a `dict` value (first binding wins, as in a Python
dict whose keys are unique). Returns `none` for a missing key; only
meaningful on `obj`. -/
def get? : JValue → String → Option JValue
  | .obj fields, k => fields.lookup k
  | _, _ => none

/-- Python `k in v` membership test, as used by the source on binding
rows: key membership for a dict, substring test for a string, element
equality for a list; anything else raises `TypeError`. -/
def hasMember (v : JValue) (k : String) : Except PyErr Bool :=
  match v with
  | .obj fields => .ok ((fields.lookup k).isSome)
  | .str s => .ok (containsSub k.data s.data)
  | .arr items => .ok (items.contains (.str k))
  | _ => .error .typeError

/-- Python `v[k]` subscripting with a string key: dict lookup
(`KeyError` when absent); strings and lists need integer indices and
raise `TypeError`, as do the remaining values. -/
def subscript (v : JValue) (k : String) : Except PyErr JValue :=
  match v with
  | .obj fields =>
    match fields.lookup k with
    | some w => .ok w
    | none => .error (.keyError k)
  | _ => .error .typeError

/-- Python `v.get(k, default)`: available only on dicts; any other
value raises `AttributeError` (no `get` attribute). -/
def dictGet (v : JValue) (k : String) (default : JValue) : Except PyErr JValue :=
  match v with
  | .obj fields =>
    match fields.lookup k with
    | some w => .ok w
    | none => .ok default
  | _ => .error .attributeError

/-- Python truthiness of a JSON-like value: `None`, `False`, `0`, `""`,
`[]` and `{}` are falsy. -/
def truthy : JValue → Bool
  | .null => false
  | .bool b => b
  | .int n => n != 0
  | .str s => !s.isEmpty
  | .arr items => !items.isEmpty
  | .obj fields => !fields.isEmpty

/-- Python iteration over a value (`for row in v`): a list yields its
elements, a dict its keys, a string its one-character substrings;
other values are not iterable and raise `TypeError`. -/
def iterate : JValue → Except PyErr (List JValue)
  | .arr items => .ok items
  | .obj fields => .ok (fields.map (fun p => .str p.1))
  | .str s => .ok (s.data.map (fun c => .str (String.mk [c])))
  | _ => .error .typeError

end JValue

/-- Model of `endpoint_health_check.classify_status`: map a raw health
outcome (`ok` flag, optional HTTP status, optional latency in seconds,
optional captured exception) to a status string. The `ok` argument is
accepted but never inspected, exactly as in the source. -/
def classify_status (_ok : Bool) (http_status : Option Int) (latency : Option ℚ)
    (error : Option String) : String :=
  if error.isSome && http_status.isNone then
    "offline"
  else if (match http_status with
           | some s => decide (200 ≤ s && s < 300 : Bool)
           | none => false) then
    (if (match latency with
         | some l => decide (l > 2)
         | none => false) then "degraded" else "online")
  else if http_status = some 401 || http_status = some 403 then
    "online"
  else if (match http_status with
           | some s => decide (500 ≤ s)
           | none => false) then
    "error"
  else
    "degraded"

/-! ## Python `int(...)` conversion -/

/-- The decimal value of a digit string. -/
def pyDigitsToNat (cs : List Char) : Nat :=
  cs.foldl (fun n c => n * 10 + (c.toNat - Char.toNat "0".front)) 0

/-- Parsing of a string by Python `int(...)`: optional surrounding
whitespace, an optional sign, then decimal digits (digit-grouping
underscores are not modelled; whitespace is ASCII whitespace). -/
def pyIntOfString? (s : String) : Option Int :=
  let t := ((s.data.dropWhile Char.isWhitespace).reverse.dropWhile
    Char.isWhitespace).reverse
  let signed :=
    match t with
    | c :: rest =>
      if c ∈ "-".data then (true, rest)
      else if c ∈ "+".data then (false, rest)
      else (false, t)
    | [] => (false, t)
  if signed.2.isEmpty then none
  else if signed.2.all Char.isDigit then
    some (if signed.1 then -(pyDigitsToNat signed.2 : Int)
      else (pyDigitsToNat signed.2 : Int))
  else none

/-- Python `int(v)` on a JSON-like value: integers pass through,
booleans become 0/1, strings are parsed (`ValueError` on failure), and
everything else raises `TypeError`. -/
def pyInt : JValue → Except PyErr Int
  | .int n => .ok n
  | .bool b => .ok (if b then 1 else 0)
  | .str s =>
    match pyIntOfString? s with
    | some n => .ok n
    | none => .error .valueError
  | _ => .error .typeError

/-- A hashable Python value, as usable for a `dict` key: the merge
accumulator only ever holds flat values as keys, because lists and
dicts are unhashable and raise `TypeError` before insertion. -/
inductive PyKey : Type
  | str (s : String)
  | int (n : Int)
  | bool (b : Bool)
  | null
deriving DecidableEq, Repr

/-- View of a value as a `dict` key: `none` for the unhashable lists
and dicts (Python raises `TypeError` when they are used as keys). -/
def JValue.toKey : JValue → Option PyKey
  | .str s => some (.str s)
  | .int n => some (.int n)
  | .bool b => some (.bool b)
  | .null => some .null
  | .arr _ => none
  | .obj _ => none

/-! ## Python dict assignment -/

/-- Python `m[k] = v` on a dict modelled as an association list in
insertion order: an existing key keeps its position and gets the new
value, a new key is appended at the end. -/
def pyDictSet {α β : Type} [BEq α] : List (α × β) → α → β → List (α × β)
  | [], k, v => [(k, v)]
  | (a, b) :: m, k, v =>
    if a == k then (a, v) :: m else (a, b) :: pyDictSet m k v

/-! ## `mainEngine.merge_count_results` -/

/-- The result table: `merge_count_results` builds a pandas `DataFrame`
from the records `{"country": k, "total_count": v}` with fixed columns
`["country", "total_count"]`; we model it as the column list plus the
(key, total) records in insertion order. -/
structure DataFrame where
  columns : List String
  rows : List (PyKey × Int)
deriving DecidableEq

/-- One iteration of the inner row loop of `merge_count_results`, acting
on the `combined` accumulator.  Mirrors the source line by line:
the two membership guards (short-circuit `or`), the unguarded
`key = row[group_var]["value"]`, the `try: count = int(row["count"]["value"])`
whose `except` catches only `ValueError` and `KeyError`, and the final
`combined[key] = combined.get(key, 0) + count` (which needs `key` to be
hashable). -/
def processRow (group_var : String) (combined : List (PyKey × Int)) (row : JValue) :
    Except PyErr (List (PyKey × Int)) := do
  let hasG ← row.hasMember group_var
  if !hasG then return combined
  let hasC ← row.hasMember "count"
  if !hasC then return combined
  let g ← row.subscript group_var
  let key ← g.subscript "value"
  match (do
      let c ← row.subscript "count"
      let v ← c.subscript "value"
      pyInt v : Except PyErr Int) with
  | .ok count =>
    match key.toKey with
    | some kk =>
      return pyDictSet combined kk ((combined.lookup kk).getD 0 + count)
    | none => throw .typeError
  | .error .valueError => return combined
  | .error (.keyError _) => return combined
  | .error e => throw e

/-- One iteration of the outer endpoint loop of `merge_count_results`:
skip non-dict results, skip results carrying an `"error"` key, fetch
`result.get("results", {}).get("bindings", [])`, skip falsy bindings,
then run the row loop over the iterated bindings. -/
def processEntry (group_var : String) (combined : List (PyKey × Int)) (result : JValue) :
    Except PyErr (List (PyKey × Int)) := do
  if !result.isObj then return combined
  let hasErr ← result.hasMember "error"
  if hasErr then return combined
  let r ← result.dictGet "results" (.obj [])
  let bindings ← r.dictGet "bindings" (.arr [])
  if !bindings.truthy then return combined
  let rows ← bindings.iterate
  rows.foldlM (processRow group_var) combined

/-- Model of `mainEngine.merge_count_results`: merge SPARQL COUNT
results from multiple endpoints into a single table.  The fan-out result dict is an
association list endpoint → result; the accumulator `combined` starts
empty and the final `DataFrame` always has columns
`["country", "total_count"]`. -/
def merge_count_results (results_dict : List (String × JValue))
    (group_var : String := "country") : Except PyErr DataFrame := do
  let combined ← results_dict.foldlM (fun c p => processEntry group_var c p.2) []
  return { columns := ["country", "total_count"], rows := combined }

/-! ## `mainEngine.execute_sparql` and `run_routine_query` -/

/-- The outcome of `sparql.query().convert()` for a request configured
with a URL, query text, optional basic-auth credentials and optional
custom headers: either the converted JSON result or an exception
message.  Passed in as an explicit environment. -/
def Net : Type := String → String → Option (String × String) →
  Option (List (String × String)) → Except String JValue

/-- Process environment (`os.environ.get`). -/
def Env : Type := String → Option String

/-- Model of `mainEngine.execute_sparql`: configure the SPARQL request (basic
credentials only when both `username` and `password` are truthy, plus
any custom headers) and convert; any exception from the request is
caught and returned as `{"error": str(e)}`. -/
def execute_sparql (net : Net) (endpoint_url : String) (query : String)
    (username : Option String := none) (password : Option String := none)
    (headers : Option (List (String × String)) := none) : JValue :=
  let creds := if pyTruthy? username && pyTruthy? password then
    some (username.getD "", password.getD "") else none
  match net endpoint_url query creds headers with
  | .ok result => result
  | .error e => .obj [("error", .str e)]

/-- One endpoint's static configuration, as read from
`endpoints_config.json` (the fields `run_routine_query` touches; the
required `endpoint_url` plus the optional auth fields read with
`.get`). -/
structure EndpointCfg where
  endpoint_url : String
  auth_method : Option String := none
  username_env : Option String := none
  password_env : Option String := none
  username : Option String := none
deriving DecidableEq, Repr

/-- One routine query's configuration, as read from
`query_config.json`: the required `query_file` and the
`allowed_endpoints` read with `.get(..., [])`. -/
structure QueryCfg where
  query_file : String
  allowed_endpoints : List String := []
deriving DecidableEq, Repr

/-- A single-quote character as a string (the source quotes
configuration references with it in error messages). -/
def sQuote : String := (Char.ofNat 39).toString

/-- Python `" and ".join(parts)`. -/
def joinAnd : List String → String
  | [] => ""
  | [a] => a
  | a :: rest => a ++ " and " ++ joinAnd rest

/-- The credential-error message built by `run_routine_query` when a
`basic` auth username or password cannot be resolved: it lists
the username reference (the `username_env` name, or the static
`username` config key) and, when configured, the `password_env` name,
joined with `" and "`. -/
def missingCredsMsg (org_name : String) (org : EndpointCfg) : String :=
  let msg_parts :=
    (if pyTruthy? org.username_env then [sQuote ++ org.username_env.getD "" ++ sQuote]
     else [sQuote ++ "username" ++ sQuote ++ " in endpoints_config.json"]) ++
    (if pyTruthy? org.password_env then [sQuote ++ org.password_env.getD "" ++ sQuote] else [])
  "Missing credentials for endpoint " ++ org_name ++ ". Check " ++
    joinAnd msg_parts ++ "."

/-- Username resolution for a `basic` endpoint, as in the source:
`os.environ.get(username_env) if username_env else org.get("username")`. -/
def resolvedUsername (org : EndpointCfg) (env : Env) : Option String :=
  if pyTruthy? org.username_env then env (org.username_env.getD "") else org.username

/-- Password resolution for a `basic` endpoint, as in the source:
`os.environ.get(password_env) if password_env else None`. -/
def resolvedPassword (org : EndpointCfg) (env : Env) : Option String :=
  if pyTruthy? org.password_env then env (org.password_env.getD "") else none

/-- The body of the endpoint loop in `run_routine_query`: the value
recorded under `org_name`'s key.  Unknown endpoints and unresolvable
basic credentials yield inline error entries; otherwise the executor's
result is recorded verbatim.  Credential resolution follows the source:
prefer the environment variable named by `username_env`/`password_env`
when that name is truthy, falling back to the static `username` config
for the username and to `None` for the password. -/
def endpointResult (endpoints : List (String × EndpointCfg)) (env : Env) (net : Net)
    (query : String) (org_name : String) : JValue :=
  match endpoints.lookup org_name with
  | none => .obj [("error", .str "Unknown endpoint")]
  | some org =>
    let url := org.endpoint_url
    let auth_method := org.auth_method.getD "none"
    if auth_method = "basic" then
      let username := resolvedUsername org env
      let password := resolvedPassword org env
      if !pyTruthy? username || !pyTruthy? password then
        .obj [("error", .str (missingCredsMsg org_name org))]
      else
        execute_sparql net url query username password
    else
      execute_sparql net url query none none

/-- Does the endpoint loop of `run_routine_query` reach the
`execute_sparql` call for `org_name`?  Same branch structure as
`endpointResult`. -/
def executorInvoked (endpoints : List (String × EndpointCfg)) (env : Env)
    (org_name : String) : Bool :=
  match endpoints.lookup org_name with
  | none => false
  | some org =>
    if org.auth_method.getD "none" = "basic" then
      pyTruthy? (resolvedUsername org env) && pyTruthy? (resolvedPassword org env)
    else true

/-- Model of `target_endpoints = endpoints_to_use or allowed`: Python `or`
returns the left operand when truthy (a non-empty list), else the right
one; both `None` and `[]` fall back to `allowed`. -/
def resolveTargets (endpoints_to_use : Option (List String)) (allowed : List String) :
    List String :=
  match endpoints_to_use with
  | some l => if l.isEmpty then allowed else l
  | none => allowed

/-- Model of `mainEngine.run_routine_query`: resolve the query by id (an unknown
id yields the `{"error": "Unknown query"}` return, modelled as the
`Except.error` branch), read its SPARQL text, resolve the target
endpoint list, and fill the `results` dict by iterating over the
targets.  The query registry, endpoint registry, process environment,
network and query-file contents are explicit environments. -/
def run_routine_query (queries : List (String × QueryCfg))
    (endpoints : List (String × EndpointCfg)) (env : Env) (net : Net)
    (fileContents : String → String) (query_id : String)
    (endpoints_to_use : Option (List String) := none) :
    Except String (List (String × JValue)) :=
  match queries.lookup query_id with
  | none => .error "Unknown query"
  | some query_cfg =>
    let query := fileContents query_cfg.query_file
    let allowed := query_cfg.allowed_endpoints
    let target_endpoints := resolveTargets endpoints_to_use allowed
    .ok (target_endpoints.foldl
      (fun results org_name =>
        pyDictSet results org_name (endpointResult endpoints env net query org_name))
      [])

/-! ## Denotational analysis of the merge loop

The row loop touches the `combined` accumulator only through the final
dict assignment, and whether an iteration raises never depends on the
accumulator.  The following functions extract, per row and per endpoint
entry, the contribution that iteration makes; lemmas below prove the
loop equal to folding these contributions. -/

/-- The contribution of one binding row: `none` when the row is
skipped, `some (key, count)` when it adds `count` under `key`, or the
exception it raises.  Same control flow as `processRow`. -/
def rowOutcome (group_var : String) (row : JValue) :
    Except PyErr (Option (PyKey × Int)) := do
  let hasG ← row.hasMember group_var
  if !hasG then return none
  let hasC ← row.hasMember "count"
  if !hasC then return none
  let g ← row.subscript group_var
  let key ← g.subscript "value"
  match (do
      let c ← row.subscript "count"
      let v ← c.subscript "value"
      pyInt v : Except PyErr Int) with
  | .ok count =>
    match key.toKey with
    | some kk => return some (kk, count)
    | none => throw .typeError
  | .error .valueError => return none
  | .error (.keyError _) => return none
  | .error e => throw e

/-- The binding rows one endpoint entry iterates over (`[]` when the
entry is skipped), or the exception the entry guards raise.  Same
control flow as the guard section of `processEntry`. -/
def entryRows (result : JValue) : Except PyErr (List JValue) := do
  if !result.isObj then return []
  let hasErr ← result.hasMember "error"
  if hasErr then return []
  let r ← result.dictGet "results" (.obj [])
  let bindings ← r.dictGet "bindings" (.arr [])
  if !bindings.truthy then return []
  bindings.iterate

/-- All row outcomes of a row list, failing at the first raising row. -/
def rowsOutcomes (group_var : String) : List JValue →
    Except PyErr (List (Option (PyKey × Int)))
  | [] => .ok []
  | row :: rows => do
    let o ← rowOutcome group_var row
    let os ← rowsOutcomes group_var rows
    return o :: os

/-- The (key, count) contributions of one endpoint entry, in row
order, or the exception processing it raises. -/
def entryDenote (group_var : String) (v : JValue) : Except PyErr (List (PyKey × Int)) := do
  let rows ← entryRows v
  let os ← rowsOutcomes group_var rows
  return os.filterMap id

/-- The contributions of every endpoint entry of a fan-out result map,
in map order, failing at the first raising entry. -/
def entriesDenote (group_var : String) : List (String × JValue) →
    Except PyErr (List (List (PyKey × Int)))
  | [] => .ok []
  | p :: m => do
    let cs ← entryDenote group_var p.2
    let css ← entriesDenote group_var m
    return cs :: css

/-- Replay a list of (key, count) contributions onto a `combined`
accumulator, exactly as the dict assignment in the source does. -/
def applyContribs (c : List (PyKey × Int)) (cs : List (PyKey × Int)) :
    List (PyKey × Int) :=
  cs.foldl (fun c kn => pyDictSet c kn.1 ((c.lookup kn.1).getD 0 + kn.2)) c

/-- Addition on optional totals: `none` means the key was never
contributed to, `some t` that the contributions so far sum to `t`. -/
def oadd : Option Int → Option Int → Option Int
  | none, b => b
  | some a, none => some a
  | some a, some b => some (a + b)

/-- The total that a contribution list assigns to key `k`: `none` when
no contribution carries `k`, otherwise the sum of those counts. -/
def contribsTotal (k : PyKey) (cs : List (PyKey × Int)) : Option Int :=
  cs.foldr (fun kn acc => oadd (if kn.1 = k then some kn.2 else none) acc) none

/-- The total for key `k` of one endpoint entry, read off its
denotation (`none` for raising entries; only used on non-raising
ones). -/
def entryTotalD (group_var : String) (k : PyKey) (v : JValue) : Option Int :=
  match entryDenote group_var v with
  | .ok cs => contribsTotal k cs
  | .error _ => none

/-! ## Structural well-formedness of endpoint entries

The domain on which the row loop cannot raise: each entry is a
non-dict, carries an `"error"` key, or is a dict whose `results`
member (when present) is a dict, whose `bindings` member (when
present) is a list, and whose rows are dicts whose touched fields
have the SPARQL JSON shape `{"value": ...}` with a string group value
and a string/int/bool count value. -/

/-- Structural well-formedness of one binding row. -/
def wfRow (group_var : String) (row : JValue) : Bool :=
  row.isObj &&
  (match row.get? group_var, row.get? "count" with
   | some g, some c =>
     (match g.get? "value" with
      | some (.str _) => true
      | _ => false) &&
     (c.isObj &&
      (match c.get? "value" with
       | some (.str _) => true
       | some (.int _) => true
       | some (.bool _) => true
       | some _ => false
       | none => true))
   | _, _ => true)

/-- Structural well-formedness of one endpoint entry. -/
def wfEntry (group_var : String) (v : JValue) : Bool :=
  !v.isObj ||
  (v.get? "error").isSome ||
  (((v.get? "results").getD (.obj [])).isObj &&
   (match (((v.get? "results").getD (.obj []))).get? "bindings" with
    | some (.arr rows) => rows.all (wfRow group_var)
    | some _ => false
    | none => true))

/-! ## The merge contract in the words of the specification

The following definitions restate, independently of the
implementation, what the specification says the merge computes; the
refinement theorems below compare the implementation against them. -/

/-- Specification-side contribution of one binding row: a row that
contains both the group variable and a `count` field whose value
parses as an integer contributes that integer under the string-typed
group value; every other row contributes nothing. -/
def spec_rowContribution (group_var : String) (row : JValue) : Option (String × Int) :=
  match row.get? group_var, row.get? "count" with
  | some g, some c =>
    (match g.get? "value", c.get? "value" with
     | some (.str k), some v =>
       (match pyInt v with
        | .ok n => some (k, n)
        | .error _ => none)
     | _, _ => none)
  | _, _ => none

/-- Specification-side binding rows of an endpoint entry: errors and
non-dict entries contribute no rows; otherwise the `results.bindings`
list (empty when absent). -/
def spec_entryBindings (v : JValue) : List JValue :=
  if !v.isObj then []
  else if (v.get? "error").isSome then []
  else
    match ((v.get? "results").getD (.obj [])).get? "bindings" with
    | some (.arr rows) => rows
    | _ => []

/-- Specification-side total of one endpoint entry for group key `k`:
the sum of the valid per-binding counts carrying `k`, or `none` when
there are none. -/
def spec_entryTotal (group_var : String) (k : String) (v : JValue) : Option Int :=
  (spec_entryBindings v).foldr
    (fun row acc =>
      oadd (match spec_rowContribution group_var row with
            | some kn => if kn.1 = k then some kn.2 else none
            | none => none) acc)
    none

/-- Specification-side total of a fan-out result map for group key
`k`: the sum of all valid per-binding counts for `k` across every
well-formed, non-error endpoint entry; `none` when the key is never
observed. -/
def spec_mapTotal (group_var : String) (k : String) (m : List (String × JValue)) :
    Option Int :=
  m.foldr (fun p acc => oadd (spec_entryTotal group_var k p.2) acc) none

/-! ## Concrete test fixtures

Small concrete registries, results and environments used to witness
the theorems on concrete inputs. -/

/-- A well-formed SPARQL COUNT result with the given (country, count)
binding rows, count given as its string literal. -/
def mkCountResult (rows : List (String × String)) : JValue :=
  .obj [("results", .obj [("bindings", .arr (rows.map (fun p =>
    .obj [("country", .obj [("value", .str p.1)]),
          ("count", .obj [("value", .str p.2)])])))])]

/-- Endpoint A of the merge scenarios: one binding, NL → 3. -/
def resultA : JValue := mkCountResult [("NL", "3")]

/-- Endpoint B of the first merge scenario: NL → 2 and BE → 1. -/
def resultB : JValue := mkCountResult [("NL", "2"), ("BE", "1")]

/-- Endpoint B:s outcome in the second merge scenario: a timeout error. -/
def errorB : JValue := .obj [("error", .str "timeout")]

/-- The first merge scenario: A and B both succeed. -/
def scenario1 : List (String × JValue) := [("A", resultA), ("B", resultB)]

/-- The first merge scenario with the endpoint entries in the opposite
order. -/
def scenario1rev : List (String × JValue) := [("B", resultB), ("A", resultA)]

/-- The second merge scenario: B returns an error. -/
def scenario2 : List (String × JValue) := [("A", resultA), ("B", errorB)]

/-- A result whose single row carries a count of zero. -/
def zeroCountResult : JValue := mkCountResult [("X", "0")]

/-- A result mixing one good row with a row missing the count field and
a row whose count does not parse as an integer. -/
def mixedRowsResult : JValue :=
  .obj [("results", .obj [("bindings", .arr [
    .obj [("country", .obj [("value", .str "NL")]),
          ("count", .obj [("value", .str "3")])],
    .obj [("country", .obj [("value", .str "DE")])],
    .obj [("country", .obj [("value", .str "FR")]),
          ("count", .obj [("value", .str "abc")])]])])]

/-- An endpoint entry that is a dict but not a well-formed result
structure: its `results` member is an integer, so `.get("bindings", [])`
on it raises `AttributeError`. -/
def badResultsEntry : JValue := .obj [("results", .int 5)]

/-- An endpoint entry whose row has a group field without a `"value"`
member, so `row[group_var]["value"]` raises `KeyError`. -/
def badGroupFieldEntry : JValue :=
  .obj [("results", .obj [("bindings", .arr [
    .obj [("country", .obj []),
          ("count", .obj [("value", .str "1")])]])])]

/-- A query registry with one query. -/
def qc1 : QueryCfg := { query_file := "f1", allowed_endpoints := ["A", "B", "C"] }

/-- The fixture query registry. -/
def qs1 : List (String × QueryCfg) := [("q1", qc1)]

/-- Fixture endpoint B: basic auth via the environment variables `BU`
and `BP`. -/
def epB : EndpointCfg :=
  { endpoint_url := "http://b", auth_method := some "basic",
    username_env := some "BU", password_env := some "BP" }

/-- The fixture endpoint registry: A without auth, B with basic auth. -/
def eps1 : List (String × EndpointCfg) :=
  [("A", { endpoint_url := "http://a" }), ("B", epB)]

/-- A fixture process environment with no variables set (so B:s basic
credentials cannot be resolved). -/
def env1 : Env := fun _ => none

/-- A fixture network on which every request converts successfully. -/
def net1 : Net := fun _ _ _ _ => .ok (.str "RESULT")

/-- A fixture network on which every request raises. -/
def netErr1 : Net := fun _ _ _ _ => .error "boom"

/-- Fixture query-file contents. -/
def fc1 : String → String := fun _ => "QUERYTEXT"

/-! ## Lemmas about Python dict updates -/

theorem lookup_isSome_iff_mem_keys {α β : Type} [BEq α] [LawfulBEq α]
    (m : List (α × β)) (k : α) :
    (m.lookup k).isSome ↔ k ∈ m.map Prod.fst := by
  induction m with
  | nil => simp
  | cons ab m ih =>
    obtain ⟨a1, a2⟩ := ab
    by_cases h : k = a1
    · simp [List.lookup, h]
    · have hb : (k == a1) = false := beq_eq_false_iff_ne.mpr h
      simp [List.lookup, hb, h, ih]

theorem mem_lookup_isSome {α β : Type} [BEq α] [LawfulBEq α]
    (m : List (α × β)) (kn : α × β) (h : kn ∈ m) :
    (m.lookup kn.1).isSome := by
  rw [lookup_isSome_iff_mem_keys]
  exact List.mem_map.mpr ⟨kn, h, rfl⟩

theorem pyDictSet_lookup {α β : Type} [BEq α] [LawfulBEq α] [DecidableEq α]
    (m : List (α × β)) (k : α) (v : β) (k' : α) :
    (pyDictSet m k v).lookup k' = if k' = k then some v else m.lookup k' := by
  induction m with
  | nil =>
    by_cases h : k' = k
    · simp [pyDictSet, List.lookup, h]
    · have hb : (k' == k) = false := beq_eq_false_iff_ne.mpr h
      simp [pyDictSet, List.lookup, hb, h]
  | cons ab m ih =>
    obtain ⟨a, b⟩ := ab
    by_cases hab : a = k
    · subst hab
      by_cases hk' : k' = a
      · subst hk'
        simp [pyDictSet, List.lookup]
      · have hb : (k' == a) = false := beq_eq_false_iff_ne.mpr hk'
        simp [pyDictSet, List.lookup, hb, hk']
    · have habb : (a == k) = false := beq_eq_false_iff_ne.mpr hab
      by_cases hk' : k' = a
      · subst hk'
        have hkk : ¬(k' = k) := hab
        simp [pyDictSet, List.lookup, habb, hkk]
      · have hb : (k' == a) = false := beq_eq_false_iff_ne.mpr hk'
        simp [pyDictSet, List.lookup, habb, hb, ih]

theorem pyDictSet_keys {α β : Type} [BEq α] [LawfulBEq α]
    (m : List (α × β)) (k : α) (v : β) :
    (pyDictSet m k v).map Prod.fst =
      if (m.lookup k).isSome then m.map Prod.fst else m.map Prod.fst ++ [k] := by
  induction m with
  | nil => simp [pyDictSet, List.lookup]
  | cons ab m ih =>
    obtain ⟨a, b⟩ := ab
    by_cases hab : a = k
    · subst hab
      simp [pyDictSet, List.lookup]
    · have habb : (a == k) = false := beq_eq_false_iff_ne.mpr hab
      have hka : (k == a) = false := beq_eq_false_iff_ne.mpr (fun he => hab he.symm)
      by_cases hs : (m.lookup k).isSome <;>
        simp [pyDictSet, List.lookup, habb, hka, hs, ih]

theorem pyDictSet_keys_nodup {α β : Type} [BEq α] [LawfulBEq α]
    (m : List (α × β)) (k : α) (v : β) (h : (m.map Prod.fst).Nodup) :
    ((pyDictSet m k v).map Prod.fst).Nodup := by
  rw [pyDictSet_keys]
  by_cases hs : (m.lookup k).isSome
  · simpa [hs] using h
  · have hk : k ∉ m.map Prod.fst := fun hm =>
      hs ((lookup_isSome_iff_mem_keys m k).mpr hm)
    simp [hs, List.nodup_append, h, hk]

/-! ## Lemmas about the fan-out accumulation loop -/

theorem foldl_pyDictSet_lookup (f : String → JValue) :
    ∀ (targets : List String) (m0 : List (String × JValue)) (k : String),
    ((targets.foldl (fun rs e => pyDictSet rs e (f e)) m0).lookup k) =
      if k ∈ targets then some (f k) else m0.lookup k
  | [], m0, k => by simp
  | t :: ts, m0, k => by
    simp only [List.foldl_cons]
    rw [foldl_pyDictSet_lookup f ts (pyDictSet m0 t (f t)) k]
    by_cases h1 : k ∈ ts
    · simp [h1, List.mem_cons]
    · rw [pyDictSet_lookup]
      by_cases h2 : k = t
      · simp [h1, h2]
      · simp [h1, h2, List.mem_cons]

theorem foldl_pyDictSet_keys_nodup (f : String → JValue) :
    ∀ (targets : List String) (m0 : List (String × JValue)),
    ((m0.map Prod.fst).Nodup) →
    ((targets.foldl (fun rs e => pyDictSet rs e (f e)) m0).map Prod.fst).Nodup
  | [], m0, h => h
  | t :: ts, m0, h => by
    simp only [List.foldl_cons]
    exact foldl_pyDictSet_keys_nodup f ts (pyDictSet m0 t (f t))
      (pyDictSet_keys_nodup m0 t (f t) h)

/-! ## The optional-total monoid -/

theorem oadd_none_right (a : Option Int) : oadd a none = a := by
  cases a <;> rfl

theorem oadd_none_left (a : Option Int) : oadd none a = a := rfl

theorem oadd_assoc (a b c : Option Int) :
    oadd (oadd a b) c = oadd a (oadd b c) := by
  cases a <;> cases b <;> cases c <;> simp [oadd, Int.add_assoc]

theorem oadd_comm (a b : Option Int) : oadd a b = oadd b a := by
  cases a <;> cases b <;> simp [oadd, Int.add_comm]

theorem foldr_oadd_init {α : Type} (g : α → Option Int) :
    ∀ (cs : List α) (x : Option Int),
    cs.foldr (fun y acc => oadd (g y) acc) x =
      oadd (cs.foldr (fun y acc => oadd (g y) acc) none) x
  | [], x => rfl
  | a :: cs, x => by
    simp only [List.foldr_cons]
    rw [foldr_oadd_init g cs x, ← oadd_assoc]

theorem contribsTotal_append (k : PyKey) (cs ds : List (PyKey × Int)) :
    contribsTotal k (cs ++ ds) = oadd (contribsTotal k cs) (contribsTotal k ds) := by
  unfold contribsTotal
  rw [List.foldr_append]
  exact foldr_oadd_init _ cs _

/-! ## Replaying contributions -/

theorem applyContribs_nil (c : List (PyKey × Int)) : applyContribs c [] = c := rfl

theorem applyContribs_cons (c : List (PyKey × Int)) (kn : PyKey × Int)
    (cs : List (PyKey × Int)) :
    applyContribs c (kn :: cs) =
      applyContribs (pyDictSet c kn.1 ((c.lookup kn.1).getD 0 + kn.2)) cs := rfl

theorem contribsTotal_cons (k : PyKey) (kn : PyKey × Int) (cs : List (PyKey × Int)) :
    contribsTotal k (kn :: cs) =
      oadd (if kn.1 = k then some kn.2 else none) (contribsTotal k cs) := rfl

theorem applyContribs_lookup :
    ∀ (cs : List (PyKey × Int)) (c : List (PyKey × Int)) (k : PyKey),
    (applyContribs c cs).lookup k = oadd (c.lookup k) (contribsTotal k cs)
  | [], c, k => by simp [applyContribs, contribsTotal, oadd_none_right]
  | kn :: cs, c, k => by
    obtain ⟨k1, n⟩ := kn
    rw [applyContribs_cons, applyContribs_lookup cs _ k, pyDictSet_lookup,
      contribsTotal_cons]
    by_cases hk : k = k1
    · subst hk
      rw [if_pos rfl, if_pos rfl]
      cases hc : c.lookup k <;> cases ht : contribsTotal k cs <;>
        simp [oadd, Int.add_assoc]
    · have hk2 : ¬(k1 = k) := fun he => hk he.symm
      rw [if_neg hk, if_neg hk2, oadd_none_left]

theorem applyContribs_keys_nodup :
    ∀ (cs : List (PyKey × Int)) (c : List (PyKey × Int)),
    ((c.map Prod.fst).Nodup) → ((applyContribs c cs).map Prod.fst).Nodup
  | [], c, h => h
  | kn :: cs, c, h => by
    rw [applyContribs_cons]
    exact applyContribs_keys_nodup cs _ (pyDictSet_keys_nodup _ _ _ h)

/-! ## Characterization of the merge loops by their denotations -/

theorem processRow_char (gv : String) (c : List (PyKey × Int)) (row : JValue) :
    processRow gv c row = (rowOutcome gv row).map (fun o =>
      match o with
      | none => c
      | some kn => pyDictSet c kn.1 ((c.lookup kn.1).getD 0 + kn.2)) := by
  unfold processRow rowOutcome
  simp only [bind, Except.bind]
  cases h1 : row.hasMember gv with
  | error e => simp [h1, Except.map, pure, Except.pure]
  | ok hasG =>
    cases hasG with
    | false => simp [h1, Except.map, pure, Except.pure]
    | true =>
      simp only [h1, Bool.not_true, Bool.false_eq_true, if_false]
      cases h2 : row.hasMember "count" with
      | error e => simp [h2, Except.map, pure, Except.pure]
      | ok hasC =>
        cases hasC with
        | false => simp [h2, Except.map, pure, Except.pure]
        | true =>
          simp only [h2, Bool.not_true, Bool.false_eq_true, if_false]
          cases h3 : row.subscript gv with
          | error e => simp [h3, Except.map, pure, Except.pure]
          | ok g =>
            simp only [h3]
            cases h4 : g.subscript "value" with
            | error e => simp [h4, Except.map, pure, Except.pure]
            | ok key =>
              simp only [h4]
              cases h5 : (do
                  let cf ← row.subscript "count"
                  let v ← cf.subscript "value"
                  pyInt v : Except PyErr Int) with
              | ok count =>
                simp only [bind, Except.bind] at h5
                simp only [h5]
                cases h6 : key.toKey <;>
                  simp [h6, Except.map, pure, Except.pure, throw, throwThe,
                    MonadExceptOf.throw]
              | error e =>
                simp only [bind, Except.bind] at h5
                simp only [h5]
                cases e <;>
                  simp [Except.map, pure, Except.pure, throw, throwThe,
                    MonadExceptOf.throw]

theorem foldlM_processRow_char (gv : String) :
    ∀ (rows : List JValue) (c : List (PyKey × Int)),
    rows.foldlM (processRow gv) c =
      (rowsOutcomes gv rows).map (fun os => applyContribs c (os.filterMap id))
  | [], c => by
    simp [rowsOutcomes, applyContribs, Except.map, pure, Except.pure]
  | row :: rows, c => by
    rw [List.foldlM_cons]
    simp only [bind, Except.bind, processRow_char]
    cases ho : rowOutcome gv row with
    | error e => simp [rowsOutcomes, ho, bind, Except.bind, Except.map]
    | ok o =>
      simp only [Except.map]
      rw [foldlM_processRow_char gv rows _]
      cases hos : rowsOutcomes gv rows with
      | error e =>
        simp [rowsOutcomes, ho, hos, bind, Except.bind, Except.map]
      | ok os =>
        simp only [rowsOutcomes, ho, hos, bind, Except.bind, Except.map,
          pure, Except.pure]
        cases o with
        | none => simp [List.filterMap_cons]
        | some kn => simp [List.filterMap_cons, applyContribs_cons]

theorem processEntry_char (gv : String) (c : List (PyKey × Int)) (v : JValue) :
    processEntry gv c v =
      (entryRows v).bind (fun rows => rows.foldlM (processRow gv) c) := by
  unfold processEntry entryRows
  simp only [bind, Except.bind]
  by_cases h1 : v.isObj
  · simp only [h1, Bool.not_true, Bool.false_eq_true, if_false]
    cases h2 : v.hasMember "error" with
    | error e => simp [pure, Except.pure]
    | ok hasErr =>
      cases hasErr with
      | true => simp [pure, Except.pure]
      | false =>
        simp only [Bool.not_false, if_true]
        cases h3 : v.dictGet "results" (.obj []) with
        | error e => simp [h3, pure, Except.pure]
        | ok r =>
          cases h4 : r.dictGet "bindings" (.arr []) with
          | error e => simp [h3, h4, pure, Except.pure]
          | ok bindings =>
            by_cases h5 : bindings.truthy
            · cases h6 : bindings.iterate with
              | error e => simp [h3, h4, h5, h6, pure, Except.pure]
              | ok rows => simp [h3, h4, h5, h6, pure, Except.pure]
            · simp only [Bool.not_eq_true] at h5
              simp [h3, h4, h5, pure, Except.pure]
  · simp only [Bool.not_eq_true] at h1
    simp [h1, pure, Except.pure]

theorem processEntry_denote (gv : String) (c : List (PyKey × Int)) (v : JValue) :
    processEntry gv c v = (entryDenote gv v).map (fun cs => applyContribs c cs) := by
  rw [processEntry_char]
  unfold entryDenote
  simp only [bind, Except.bind]
  cases her : entryRows v with
  | error e => simp [Except.map]
  | ok rows =>
    simp only [foldlM_processRow_char gv rows c, Except.map]
    cases hos : rowsOutcomes gv rows with
    | error e => simp
    | ok os => simp [pure, Except.pure]

theorem applyContribs_append (c : List (PyKey × Int)) (cs ds : List (PyKey × Int)) :
    applyContribs c (cs ++ ds) = applyContribs (applyContribs c cs) ds := by
  unfold applyContribs
  exact List.foldl_append _ _ _ _

theorem foldlM_processEntry_char (gv : String) :
    ∀ (m : List (String × JValue)) (c : List (PyKey × Int)),
    m.foldlM (fun c p => processEntry gv c p.2) c =
      (entriesDenote gv m).map (fun css => applyContribs c css.flatten)
  | [], c => by
    simp [entriesDenote, applyContribs, Except.map, pure, Except.pure]
  | p :: m, c => by
    rw [List.foldlM_cons]
    show (processEntry gv c p.2 >>=
      fun init => List.foldlM (fun c p => processEntry gv c p.2) init m) = _
    rw [processEntry_denote]
    cases hd : entryDenote gv p.2 with
    | error e => simp [entriesDenote, hd, bind, Except.bind, Except.map]
    | ok cs =>
      simp only [Except.map, bind, Except.bind]
      rw [foldlM_processEntry_char gv m (applyContribs c cs)]
      cases hds : entriesDenote gv m with
      | error e =>
        simp [entriesDenote, hd, hds, bind, Except.bind, Except.map]
      | ok css =>
        simp only [entriesDenote, hd, hds, bind, Except.bind, Except.map,
          pure, Except.pure, List.flatten]
        rw [applyContribs_append]

theorem merge_char (m : List (String × JValue)) (gv : String) :
    merge_count_results m gv = (entriesDenote gv m).map
      (fun css => ⟨["country", "total_count"], applyContribs [] css.flatten⟩) := by
  unfold merge_count_results
  simp only [bind, Except.bind]
  rw [foldlM_processEntry_char gv m []]
  cases hds : entriesDenote gv m with
  | error e => simp [Except.map]
  | ok css => simp [Except.map, pure, Except.pure]

theorem entriesDenote_total (gv : String) :
    ∀ (m : List (String × JValue)) (css : List (List (PyKey × Int))),
    entriesDenote gv m = .ok css → ∀ k : PyKey,
    contribsTotal k css.flatten =
      m.foldr (fun p acc => oadd (entryTotalD gv k p.2) acc) none
  | [], css, h, k => by
    simp only [entriesDenote] at h
    cases h
    rfl
  | p :: m, css, h, k => by
    simp only [entriesDenote, bind, Except.bind] at h
    cases hd : entryDenote gv p.2 with
    | error e => rw [hd] at h; exact absurd h (by simp)
    | ok cs =>
      rw [hd] at h
      cases hds : entriesDenote gv m with
      | error e => rw [hds] at h; exact absurd h (by simp)
      | ok css' =>
        rw [hds] at h
        simp only [pure, Except.pure, Except.ok.injEq] at h
        subst h
        simp only [List.flatten, List.foldr_cons]
        rw [contribsTotal_append, entriesDenote_total gv m css' hds k]
        unfold entryTotalD
        rw [hd]

theorem foldr_oadd_perm {α : Type} (g : α → Option Int) {l1 l2 : List α}
    (h : l1.Perm l2) :
    l1.foldr (fun x acc => oadd (g x) acc) none =
      l2.foldr (fun x acc => oadd (g x) acc) none := by
  induction h with
  | nil => rfl
  | cons x h ih => simp only [List.foldr_cons, ih]
  | swap x y l =>
    simp only [List.foldr_cons]
    rw [← oadd_assoc, oadd_comm (g y) (g x), oadd_assoc]
  | trans h1 h2 ih1 ih2 => exact ih1.trans ih2

theorem entriesDenote_ok_of_all (gv : String) :
    ∀ (m : List (String × JValue)),
    (∀ p ∈ m, ∃ cs, entryDenote gv p.2 = .ok cs) →
    ∃ css, entriesDenote gv m = .ok css
  | [], _ => ⟨[], rfl⟩
  | p :: m, h => by
    obtain ⟨cs, hcs⟩ := h p (List.mem_cons_self p m)
    obtain ⟨css, hcss⟩ := entriesDenote_ok_of_all gv m
      (fun q hq => h q (List.mem_cons_of_mem p hq))
    exact ⟨cs :: css, by simp [entriesDenote, bind, Except.bind, hcs, hcss,
      pure, Except.pure]⟩

theorem entriesDenote_all_of_ok (gv : String) :
    ∀ (m : List (String × JValue)) (css : List (List (PyKey × Int))),
    entriesDenote gv m = .ok css →
    ∀ p ∈ m, ∃ cs, entryDenote gv p.2 = .ok cs
  | [], _, _, p, hp => absurd hp (List.not_mem_nil p)
  | q :: m, css, h, p, hp => by
    simp only [entriesDenote, bind, Except.bind] at h
    cases hd : entryDenote gv q.2 with
    | error e => rw [hd] at h; exact absurd h (by simp)
    | ok cs =>
      rw [hd] at h
      cases hds : entriesDenote gv m with
      | error e => rw [hds] at h; exact absurd h (by simp)
      | ok css' =>
        rcases List.mem_cons.mp hp with hpq | hpm
        · exact ⟨cs, hpq ▸ hd⟩
        · exact entriesDenote_all_of_ok gv m css' hds p hpm

/-! ## Behaviour of the loops on structurally well-formed entries -/

set_option maxHeartbeats 2000000 in
theorem rowOutcome_wf (gv : String) :
    ∀ (row : JValue), wfRow gv row = true →
    rowOutcome gv row = .ok (match spec_rowContribution gv row with
      | some kn => some (PyKey.str kn.1, kn.2)
      | none => none)
  | .str _, hwf => by simp [wfRow, JValue.isObj] at hwf
  | .int _, hwf => by simp [wfRow, JValue.isObj] at hwf
  | .bool _, hwf => by simp [wfRow, JValue.isObj] at hwf
  | .null, hwf => by simp [wfRow, JValue.isObj] at hwf
  | .arr _, hwf => by simp [wfRow, JValue.isObj] at hwf
  | .obj fields, hwf => by
    unfold wfRow at hwf
    simp only [JValue.isObj, Bool.true_and, JValue.get?] at hwf
    unfold rowOutcome spec_rowContribution
    simp only [bind, Except.bind, JValue.hasMember, JValue.get?, JValue.subscript]
    cases hg : fields.lookup gv with
    | none => simp [hg, pure, Except.pure]
    | some g =>
      cases hc : fields.lookup "count" with
      | none => simp [hg, hc, pure, Except.pure]
      | some cf =>
        rw [hg, hc] at hwf
        simp only [Bool.and_eq_true] at hwf
        obtain ⟨hgv, hcf⟩ := hwf
        cases g with
        | obj gf =>
          simp only [JValue.get?] at hgv
          cases hv : gf.lookup "value" with
          | none => rw [hv] at hgv; simp at hgv
          | some w =>
            rw [hv] at hgv
            cases w with
            | str k =>
              obtain ⟨hcfo, hcv⟩ := hcf
              cases cf with
              | obj cff =>
                simp only [JValue.get?] at hcv
                cases hcval : cff.lookup "value" with
                | none =>
                  rw [hcval] at hcv
                  simp [hg, hc, hv, hcval, JValue.subscript, pure, Except.pure,
                    bind, Except.bind]
                | some cv =>
                  rw [hcval] at hcv
                  cases cv with
                  | str cs =>
                    cases hpi : pyIntOfString? cs with
                    | none =>
                      simp [hg, hc, hv, hcval, hpi, JValue.subscript, pyInt,
                        pure, Except.pure, bind, Except.bind]
                    | some n =>
                      simp [hg, hc, hv, hcval, hpi, JValue.subscript, pyInt,
                        JValue.toKey, pure, Except.pure, bind, Except.bind]
                  | int n =>
                    simp [hg, hc, hv, hcval, JValue.subscript, pyInt,
                      JValue.toKey, pure, Except.pure, bind, Except.bind]
                  | bool b =>
                    simp [hg, hc, hv, hcval, JValue.subscript, pyInt,
                      JValue.toKey, pure, Except.pure, bind, Except.bind]
                  | null => simp at hcv
                  | arr _ => simp at hcv
                  | obj _ => simp at hcv
              | str _ => simp [JValue.isObj] at hcfo
              | int _ => simp [JValue.isObj] at hcfo
              | bool _ => simp [JValue.isObj] at hcfo
              | null => simp [JValue.isObj] at hcfo
              | arr _ => simp [JValue.isObj] at hcfo
            | int _ => simp at hgv
            | bool _ => simp at hgv
            | null => simp at hgv
            | arr _ => simp at hgv
            | obj _ => simp at hgv
        | str _ => simp [JValue.get?] at hgv
        | int _ => simp [JValue.get?] at hgv
        | bool _ => simp [JValue.get?] at hgv
        | null => simp [JValue.get?] at hgv
        | arr _ => simp [JValue.get?] at hgv

set_option maxHeartbeats 2000000 in
theorem entryRows_wf (gv : String) (v : JValue) (hwf : wfEntry gv v = true) :
    entryRows v = .ok (spec_entryBindings v) ∧
      ∀ row ∈ spec_entryBindings v, wfRow gv row = true := by
  cases v with
  | obj fields =>
    unfold wfEntry at hwf
    simp only [JValue.isObj, Bool.not_true, Bool.false_or, JValue.get?] at hwf
    unfold entryRows spec_entryBindings
    simp only [bind, Except.bind, JValue.hasMember, JValue.isObj, JValue.get?,
      Bool.not_true, Bool.false_eq_true, if_false]
    cases he : fields.lookup "error" with
    | some w => simp [pure, Except.pure]
    | none =>
      rw [he] at hwf
      simp only [Option.isSome_none, Bool.false_or] at hwf
      simp only [Option.isSome_none, Bool.false_eq_true, Bool.not_false, if_true]
      cases hres : fields.lookup "results" with
      | none =>
        rw [hres] at hwf
        simp [hres, JValue.dictGet, JValue.truthy, pure, Except.pure]
      | some r =>
        rw [hres] at hwf
        simp only [Option.getD_some, Bool.and_eq_true] at hwf
        obtain ⟨hro, hb⟩ := hwf
        cases r with
        | obj rf =>
          simp only [JValue.get?] at hb
          simp only [JValue.dictGet]
          cases hbl : rf.lookup "bindings" with
          | none =>
            rw [hbl] at hb
            simp [hres, hbl, JValue.dictGet, JValue.truthy, pure, Except.pure]
          | some b =>
            rw [hbl] at hb
            cases b with
            | arr rows =>
              cases rows with
              | nil => simp [hres, hbl, JValue.dictGet, JValue.truthy, pure, Except.pure]
              | cons r0 rs =>
                simp only [hres, hbl, Option.getD_some, JValue.dictGet,
                  JValue.truthy, List.isEmpty_cons, Bool.not_false, Bool.not_true,
                  Bool.false_eq_true, if_false, JValue.iterate, pure, Except.pure]
                refine ⟨trivial, ?_⟩
                intro row hrow
                exact List.all_eq_true.mp hb row hrow
            | str _ => simp at hb
            | int _ => simp at hb
            | bool _ => simp at hb
            | null => simp at hb
            | obj _ => simp at hb
        | str _ => simp [JValue.isObj] at hro
        | int _ => simp [JValue.isObj] at hro
        | bool _ => simp [JValue.isObj] at hro
        | null => simp [JValue.isObj] at hro
        | arr _ => simp [JValue.isObj] at hro
  | str s => exact ⟨rfl, fun row hrow => absurd hrow (List.not_mem_nil row)⟩
  | int n => exact ⟨rfl, fun row hrow => absurd hrow (List.not_mem_nil row)⟩
  | bool b => exact ⟨rfl, fun row hrow => absurd hrow (List.not_mem_nil row)⟩
  | null => exact ⟨rfl, fun row hrow => absurd hrow (List.not_mem_nil row)⟩
  | arr items => exact ⟨rfl, fun row hrow => absurd hrow (List.not_mem_nil row)⟩

theorem rowsOutcomes_wf (gv : String) :
    ∀ (rows : List JValue), (∀ row ∈ rows, wfRow gv row = true) →
    rowsOutcomes gv rows = .ok (rows.map (fun row =>
      match spec_rowContribution gv row with
      | some kn => some (PyKey.str kn.1, kn.2)
      | none => none))
  | [], _ => rfl
  | row :: rows, h => by
    have h0 := rowOutcome_wf gv row (h row (List.mem_cons_self row rows))
    have ih := rowsOutcomes_wf gv rows (fun r hr => h r (List.mem_cons_of_mem row hr))
    simp [rowsOutcomes, bind, Except.bind, h0, ih, pure, Except.pure]

theorem foldr_congr_fun {α β : Type} (f g : α → β → β) (b : β) :
    ∀ (l : List α), (∀ x ∈ l, ∀ acc, f x acc = g x acc) →
    l.foldr f b = l.foldr g b
  | [], _ => rfl
  | x :: l, h => by
    simp only [List.foldr_cons]
    rw [foldr_congr_fun f g b l (fun y hy => h y (List.mem_cons_of_mem x hy)),
      h x (List.mem_cons_self x l)]

theorem contribsTotal_filterMap {α : Type} (f : α → Option (PyKey × Int)) (k : PyKey) :
    ∀ (l : List α),
    contribsTotal k (l.filterMap f) =
      l.foldr (fun x acc => oadd (match f x with
        | some kn => if kn.1 = k then some kn.2 else none
        | none => none) acc) none
  | [] => rfl
  | x :: l => by
    rw [List.filterMap_cons]
    cases hf : f x with
    | none =>
      simp only [List.foldr_cons, hf, oadd_none_left]
      exact contribsTotal_filterMap f k l
    | some kn =>
      simp only [List.foldr_cons, hf, contribsTotal_cons]
      rw [contribsTotal_filterMap f k l]

theorem entryDenote_wf (gv : String) (v : JValue) (hwf : wfEntry gv v = true) :
    ∃ cs, entryDenote gv v = .ok cs ∧
      (∀ k : String, contribsTotal (PyKey.str k) cs = spec_entryTotal gv k v) ∧
      (∀ kn ∈ cs, ∃ k : String, kn.1 = PyKey.str k) := by
  obtain ⟨hr, hall⟩ := entryRows_wf gv v hwf
  have hro := rowsOutcomes_wf gv (spec_entryBindings v) hall
  refine ⟨(spec_entryBindings v).filterMap (fun row =>
      match spec_rowContribution gv row with
      | some kn => some (PyKey.str kn.1, kn.2)
      | none => none), ?_, ?_, ?_⟩
  · unfold entryDenote
    simp [bind, Except.bind, hr, hro, pure, Except.pure, List.filterMap_map]
  · intro k
    rw [contribsTotal_filterMap]
    unfold spec_entryTotal
    apply foldr_congr_fun
    intro row _ acc
    cases hc : spec_rowContribution gv row with
    | none => rfl
    | some kn =>
      by_cases hk : kn.1 = k
      · simp [hk]
      · have : ¬(PyKey.str kn.1 = PyKey.str k) := by simp [hk]
        simp [hk, this]
  · intro kn hkn
    rcases List.mem_filterMap.mp hkn with ⟨row, _, hrow⟩
    cases hc : spec_rowContribution gv row with
    | none => rw [hc] at hrow; cases hrow
    | some kn' =>
      rw [hc] at hrow
      exact ⟨kn'.1, by cases hrow; rfl⟩

theorem entriesDenote_wf (gv : String) :
    ∀ (m : List (String × JValue)), (∀ p ∈ m, wfEntry gv p.2 = true) →
    ∃ css, entriesDenote gv m = .ok css ∧
      (∀ k : String, contribsTotal (PyKey.str k) css.flatten = spec_mapTotal gv k m) ∧
      (∀ cs ∈ css, ∀ kn ∈ cs, ∃ k : String, kn.1 = PyKey.str k)
  | [], _ => ⟨[], rfl, fun k => rfl, fun cs hcs => absurd hcs (List.not_mem_nil cs)⟩
  | p :: m, h => by
    obtain ⟨cs, hcs, hct, hck⟩ := entryDenote_wf gv p.2 (h p (List.mem_cons_self p m))
    obtain ⟨css, hcss, hcst, hcsk⟩ := entriesDenote_wf gv m
      (fun q hq => h q (List.mem_cons_of_mem p hq))
    refine ⟨cs :: css, ?_, ?_, ?_⟩
    · simp [entriesDenote, bind, Except.bind, hcs, hcss, pure, Except.pure]
    · intro k
      simp only [List.flatten_cons, contribsTotal_append, hct, hcst]
      rfl
    · intro ds hds kn hkn
      rcases List.mem_cons.mp hds with hd | hd
      · exact hck kn (hd ▸ hkn)
      · exact hcsk ds hd kn hkn

theorem contribsTotal_none (k : PyKey) :
    ∀ (cs : List (PyKey × Int)), (∀ kn ∈ cs, kn.1 ≠ k) →
    contribsTotal k cs = none
  | [], _ => rfl
  | kn :: cs, h => by
    rw [contribsTotal_cons, if_neg (h kn (List.mem_cons_self kn cs)),
      oadd_none_left]
    exact contribsTotal_none k cs (fun kn' hkn' => h kn' (List.mem_cons_of_mem kn hkn'))

theorem applyContribs_keys_subset :
    ∀ (cs c : List (PyKey × Int)) (x : PyKey),
    x ∈ (applyContribs c cs).map Prod.fst →
    x ∈ c.map Prod.fst ∨ x ∈ cs.map Prod.fst
  | [], c, x, hx => .inl hx
  | kn :: cs, c, x, hx => by
    rw [applyContribs_cons] at hx
    rcases applyContribs_keys_subset cs _ x hx with h | h
    · rw [pyDictSet_keys] at h
      by_cases hs : ((c.lookup kn.1).isSome)
      · rw [if_pos hs] at h
        exact .inl h
      · rw [if_neg hs] at h
        rcases List.mem_append.mp h with h | h
        · exact .inl h
        · right
          rw [List.mem_singleton.mp h]
          exact List.mem_map.mpr ⟨kn, List.mem_cons_self kn cs, rfl⟩
    · right
      simp only [List.map_cons, List.mem_cons]
      exact .inr h

/-! ## Claim theorems -/

/-- C3: `classify_status` maps a raw health outcome with no HTTP status
and an error to `offline`; a 2xx status with latency at most 2.0s
(including exactly 2.0s) to `online`; a 2xx status with latency above
2.0s to `degraded`; status 401 or 403 to `online`; a status of 500 or
more to `error`; and any other status to `degraded`. -/
theorem C3_classify_status :
    (∀ (ok : Bool) (lat : Option ℚ) (e : String),
      classify_status ok none lat (some e) = "offline") ∧
    (∀ (ok : Bool) (s : Int) (lat : ℚ) (err : Option String),
      200 ≤ s → s < 300 → lat ≤ 2 →
      classify_status ok (some s) (some lat) err = "online") ∧
    (∀ (ok : Bool) (s : Int) (lat : ℚ) (err : Option String),
      200 ≤ s → s < 300 → 2 < lat →
      classify_status ok (some s) (some lat) err = "degraded") ∧
    (∀ (ok : Bool) (lat : Option ℚ) (err : Option String),
      classify_status ok (some 401) lat err = "online" ∧
      classify_status ok (some 403) lat err = "online") ∧
    (∀ (ok : Bool) (s : Int) (lat : Option ℚ) (err : Option String),
      500 ≤ s → classify_status ok (some s) lat err = "error") ∧
    (∀ (ok : Bool) (s : Int) (lat : Option ℚ) (err : Option String),
      ¬(200 ≤ s ∧ s < 300) → s ≠ 401 → s ≠ 403 → s < 500 →
      classify_status ok (some s) lat err = "degraded") := by
  refine ⟨?_, ?_, ?_, ?_, ?_, ?_⟩
  · intro ok lat e
    simp [classify_status]
  · intro ok s lat err h200 h300 hlat
    have hn : ¬(2 < lat) := not_lt.mpr hlat
    simp [classify_status, h200, h300, hn]
  · intro ok s lat err h200 h300 hlat
    simp [classify_status, h200, h300, hlat]
  · intro ok lat err
    constructor <;> simp [classify_status]
  · intro ok s lat err h5
    have h300 : ¬(s < 300) := by omega
    have h401 : ¬(s = 401) := by omega
    have h403 : ¬(s = 403) := by omega
    simp [classify_status, h300, h401, h403, h5]
  · intro ok s lat err h2xx h401 h403 h500
    have h500' : ¬(500 ≤ s) := not_le.mpr h500
    rcases not_and_or.mp h2xx with h | h <;>
      simp [classify_status, h, h401, h403, h500']

/-- Witness for C3 at concrete raw outcomes, one per classified case. -/
theorem C3_witness :
    classify_status true none (some 1) (some "connection refused") = "offline" ∧
    classify_status true (some 204) (some 2) none = "online" ∧
    classify_status true (some 200) (some (5/2)) none = "degraded" ∧
    classify_status true (some 401) none none = "online" ∧
    classify_status false (some 503) (some 1) none = "error" ∧
    classify_status true (some 302) none none = "degraded" :=
  ⟨C3_classify_status.1 true (some 1) "connection refused",
   C3_classify_status.2.1 true 204 2 none (by norm_num) (by norm_num) (by norm_num),
   C3_classify_status.2.2.1 true 200 (5/2) none (by norm_num) (by norm_num)
     (by norm_num),
   (C3_classify_status.2.2.2.1 true none none).1,
   C3_classify_status.2.2.2.2.1 false 503 (some 1) none (by norm_num),
   C3_classify_status.2.2.2.2.2 true 302 none none (by omega) (by omega)
     (by omega) (by omega)⟩

/-- C5: a query id absent from the query registry makes
`run_routine_query` fail with the unknown-query error; no per-endpoint
map is returned. -/
theorem C5_unknown_query (queries : List (String × QueryCfg))
    (endpoints : List (String × EndpointCfg)) (env : Env) (net : Net)
    (fileContents : String → String) (query_id : String)
    (endpoints_to_use : Option (List String))
    (h : queries.lookup query_id = none) :
    run_routine_query queries endpoints env net fileContents query_id
        endpoints_to_use = .error "Unknown query" ∧
    ∀ results, run_routine_query queries endpoints env net fileContents query_id
        endpoints_to_use ≠ .ok results := by
  unfold run_routine_query
  rw [h]
  exact ⟨rfl, fun results hr => by cases hr⟩

/-- Witness for C5: the id `"nope"` is not in the fixture registry. -/
theorem C5_witness :
    qs1.lookup "nope" = none ∧
    run_routine_query qs1 eps1 env1 net1 fc1 "nope" none =
      .error "Unknown query" :=
  ⟨rfl, (C5_unknown_query qs1 eps1 env1 net1 fc1 "nope" none rfl).1⟩

/-- C6: `execute_sparql` is total on its environment: a successful
conversion is passed through unmodified, and a raising one is caught
and returned as an error descriptor. -/
theorem C6_execute_sparql (net : Net) (url query : String)
    (username password : Option String)
    (headers : Option (List (String × String))) :
    (∀ r, net url query
        (if pyTruthy? username && pyTruthy? password then
          some (username.getD "", password.getD "") else none) headers = .ok r →
      execute_sparql net url query username password headers = r) ∧
    (∀ e, net url query
        (if pyTruthy? username && pyTruthy? password then
          some (username.getD "", password.getD "") else none) headers = .error e →
      execute_sparql net url query username password headers =
        .obj [("error", .str e)]) := by
  constructor <;> intro x h <;> (simp only [execute_sparql]; rw [h])

/-- Witness for C6 on a succeeding and on a raising network. -/
theorem C6_witness :
    execute_sparql net1 "http://a" "Q" none none none = .str "RESULT" ∧
    execute_sparql netErr1 "http://a" "Q" none none none =
      .obj [("error", .str "boom")] :=
  ⟨(C6_execute_sparql net1 "http://a" "Q" none none none).1 (.str "RESULT") rfl,
   (C6_execute_sparql netErr1 "http://a" "Q" none none none).2 "boom" rfl⟩

/-- C8: the target endpoint set is the caller-supplied list when it is
provided and non-empty, and the query configuration:s
`allowed_endpoints` otherwise — in particular an explicitly supplied
empty list falls back; and `run_routine_query` builds its result map by
iterating over exactly that resolved list. -/
theorem C8_resolve_targets (allowed l : List String) :
    (l ≠ [] → resolveTargets (some l) allowed = l) ∧
    resolveTargets (some []) allowed = allowed ∧
    resolveTargets none allowed = allowed ∧
    (∀ (queries : List (String × QueryCfg))
        (endpoints : List (String × EndpointCfg)) (env : Env) (net : Net)
        (fileContents : String → String) (query_id : String) (qc : QueryCfg),
      queries.lookup query_id = some qc →
      ∀ eu, run_routine_query queries endpoints env net fileContents query_id eu =
        .ok ((resolveTargets eu qc.allowed_endpoints).foldl
          (fun results org_name => pyDictSet results org_name
            (endpointResult endpoints env net (fileContents qc.query_file) org_name))
          [])) := by
  refine ⟨fun h => ?_, rfl, rfl, ?_⟩
  · simp [resolveTargets, h]
  · intro queries endpoints env net fileContents query_id qc hq eu
    unfold run_routine_query
    rw [hq]

/-- Witness for C8 with a non-empty supplied list. -/
theorem C8_witness :
    (["A"] ≠ ([] : List String)) ∧
    resolveTargets (some ["A"]) ["B"] = ["A"] :=
  ⟨List.cons_ne_nil "A" [],
   (C8_resolve_targets ["B"] ["A"]).1 (List.cons_ne_nil "A" [])⟩

/-- C10: every table `merge_count_results` returns has exactly the
columns `["country", "total_count"]`, whatever `group_var` was
passed. -/
theorem C10_columns_fixed (m : List (String × JValue)) (gv : String)
    (df : DataFrame) (h : merge_count_results m gv = .ok df) :
    df.columns = ["country", "total_count"] := by
  rw [merge_char] at h
  cases hd : entriesDenote gv m with
  | error e => rw [hd] at h; simp [Except.map] at h
  | ok css =>
    rw [hd] at h
    simp only [Except.map, Except.ok.injEq] at h
    rw [← h]

/-- Witness for C10 with a group variable other than country. -/
theorem C10_witness :
    merge_count_results [("A", mkCountResult [("NL", "3")])] "city" =
      .ok ⟨["country", "total_count"], []⟩ ∧
    (⟨["country", "total_count"], ([] : List (PyKey × Int))⟩ :
      DataFrame).columns = ["country", "total_count"] :=
  ⟨rfl, C10_columns_fixed [("A", mkCountResult [("NL", "3")])] "city" _ rfl⟩

/-- C1: for a registered query id and any endpoint list, the map
returned by `run_routine_query` has exactly one entry per resolved
target endpoint — key set equal to the resolved target set, no
duplicates — each entry being determined by its own endpoint alone
(either an inline error descriptor or the executor:s result), so no
endpoint:s failure can remove or prevent another:s entry. -/
theorem C1_fanout_complete (queries : List (String × QueryCfg))
    (endpoints : List (String × EndpointCfg)) (env : Env) (net : Net)
    (fileContents : String → String) (query_id : String)
    (endpoints_to_use : Option (List String)) (qc : QueryCfg)
    (hq : queries.lookup query_id = some qc) :
    ∃ results, run_routine_query queries endpoints env net fileContents query_id
        endpoints_to_use = .ok results ∧
      (results.map Prod.fst).Nodup ∧
      (∀ e, (results.lookup e).isSome ↔
        e ∈ resolveTargets endpoints_to_use qc.allowed_endpoints) ∧
      (∀ e ∈ resolveTargets endpoints_to_use qc.allowed_endpoints,
        results.lookup e = some (endpointResult endpoints env net
          (fileContents qc.query_file) e)) ∧
      (∀ e ∈ resolveTargets endpoints_to_use qc.allowed_endpoints,
        (∃ msg, endpointResult endpoints env net (fileContents qc.query_file) e =
          .obj [("error", .str msg)]) ∨
        (∃ cfg, endpoints.lookup e = some cfg ∧
          ∃ u p, endpointResult endpoints env net (fileContents qc.query_file) e =
            execute_sparql net cfg.endpoint_url (fileContents qc.query_file) u p)) := by
  refine ⟨(resolveTargets endpoints_to_use qc.allowed_endpoints).foldl
    (fun results org_name => pyDictSet results org_name
      (endpointResult endpoints env net (fileContents qc.query_file) org_name)) [],
    ?_, ?_, ?_, ?_, ?_⟩
  · unfold run_routine_query
    rw [hq]
  · exact foldl_pyDictSet_keys_nodup _ _ [] (by simp)
  · intro e
    rw [foldl_pyDictSet_lookup]
    by_cases he : e ∈ resolveTargets endpoints_to_use qc.allowed_endpoints <;>
      simp [he]
  · intro e he
    rw [foldl_pyDictSet_lookup]
    simp [he]
  · intro e _
    cases hl : endpoints.lookup e with
    | none => exact .inl ⟨"Unknown endpoint", by simp [endpointResult, hl]⟩
    | some cfg =>
      by_cases hb : cfg.auth_method.getD "none" = "basic"
      · by_cases hm : (!pyTruthy? (resolvedUsername cfg env) ||
            !pyTruthy? (resolvedPassword cfg env)) = true
        · exact .inl ⟨missingCredsMsg e cfg,
            by simp [endpointResult, hl, hb, hm]⟩
        · refine .inr ⟨cfg, rfl, resolvedUsername cfg env, resolvedPassword cfg env, ?_⟩
          simp [endpointResult, hl, hb]
          simp only [Bool.or_eq_true, Bool.not_eq_eq_eq_not, Bool.not_true] at hm
          push_neg at hm
          simp [hm.1, hm.2]
      · refine .inr ⟨cfg, rfl, none, none, ?_⟩
        simp [endpointResult, hl, hb]

/-- Witness for C1: the fixture registry, query `"q1"` and the
explicit endpoint list `["A", "B"]`. -/
theorem C1_witness :
    qs1.lookup "q1" = some qc1 ∧
    ∃ results, run_routine_query qs1 eps1 env1 net1 fc1 "q1"
        (some ["A", "B"]) = .ok results ∧
      (results.map Prod.fst).Nodup ∧
      (∀ e, (results.lookup e).isSome ↔
        e ∈ resolveTargets (some ["A", "B"]) qc1.allowed_endpoints) ∧
      (∀ e ∈ resolveTargets (some ["A", "B"]) qc1.allowed_endpoints,
        results.lookup e = some (endpointResult eps1 env1 net1
          (fc1 qc1.query_file) e)) ∧
      (∀ e ∈ resolveTargets (some ["A", "B"]) qc1.allowed_endpoints,
        (∃ msg, endpointResult eps1 env1 net1 (fc1 qc1.query_file) e =
          .obj [("error", .str msg)]) ∨
        (∃ cfg, eps1.lookup e = some cfg ∧
          ∃ u p, endpointResult eps1 env1 net1 (fc1 qc1.query_file) e =
            execute_sparql net1 cfg.endpoint_url (fc1 qc1.query_file) u p)) :=
  ⟨rfl, C1_fanout_complete qs1 eps1 env1 net1 fc1 "q1" (some ["A", "B"]) qc1 rfl⟩

/-- C7: a target endpoint configured for basic auth whose username or
password cannot be resolved gets an inline error entry whose message
names the endpoint and the configured credential references, the
executor is not invoked for it, and a fan-out containing it still
records every target:s own entry. -/
theorem C7_missing_credentials (endpoints : List (String × EndpointCfg))
    (env : Env) (net : Net) (org_name : String) (cfg : EndpointCfg)
    (hl : endpoints.lookup org_name = some cfg)
    (hb : cfg.auth_method.getD "none" = "basic")
    (hm : pyTruthy? (resolvedUsername cfg env) = false ∨
          pyTruthy? (resolvedPassword cfg env) = false) :
    (∀ query, endpointResult endpoints env net query org_name =
      .obj [("error", .str (missingCredsMsg org_name cfg))]) ∧
    executorInvoked endpoints env org_name = false ∧
    (∃ pre post, missingCredsMsg org_name cfg = pre ++ org_name ++ post) ∧
    (pyTruthy? cfg.username_env = true →
      ∃ pre post, missingCredsMsg org_name cfg =
        pre ++ cfg.username_env.getD "" ++ post) ∧
    (pyTruthy? cfg.username_env = false →
      ∃ pre post, missingCredsMsg org_name cfg =
        pre ++ (sQuote ++ "username" ++ sQuote ++ " in endpoints_config.json") ++ post) ∧
    (pyTruthy? cfg.password_env = true →
      ∃ pre post, missingCredsMsg org_name cfg =
        pre ++ cfg.password_env.getD "" ++ post) ∧
    (∀ (queries : List (String × QueryCfg)) (fileContents : String → String)
        (query_id : String) (qc : QueryCfg),
      queries.lookup query_id = some qc →
      ∀ eu, ∃ results,
        run_routine_query queries endpoints env net fileContents query_id eu =
          .ok results ∧
        ∀ e ∈ resolveTargets eu qc.allowed_endpoints,
          results.lookup e = some (endpointResult endpoints env net
            (fileContents qc.query_file) e)) := by
  have hm' : (!pyTruthy? (resolvedUsername cfg env) ||
      !pyTruthy? (resolvedPassword cfg env)) = true := by
    rcases hm with h | h <;> simp [h]
  refine ⟨?_, ?_, ?_, ?_, ?_, ?_, ?_⟩
  · intro query
    simp [endpointResult, hl, hb, hm']
  · rcases hm with h | h <;> simp [executorInvoked, hl, hb, h]
  · refine ⟨"Missing credentials for endpoint ",
      ". Check " ++ joinAnd
        ((if pyTruthy? cfg.username_env then
            [sQuote ++ cfg.username_env.getD "" ++ sQuote]
          else [sQuote ++ "username" ++ sQuote ++ " in endpoints_config.json"]) ++
         (if pyTruthy? cfg.password_env then
            [sQuote ++ cfg.password_env.getD "" ++ sQuote] else [])) ++ ".", ?_⟩
    simp [missingCredsMsg, String.append_assoc]
  · intro hu
    by_cases hp : pyTruthy? cfg.password_env
    · refine ⟨"Missing credentials for endpoint " ++ org_name ++ ". Check " ++ sQuote,
        sQuote ++ " and " ++ sQuote ++ cfg.password_env.getD "" ++ sQuote ++ ".", ?_⟩
      simp only [missingCredsMsg, joinAnd, hu, hp, if_true, if_false,
        Bool.false_eq_true, eq_self_iff_true, List.cons_append, List.nil_append,
        List.append_nil, List.singleton_append, String.append_assoc]
    · refine ⟨"Missing credentials for endpoint " ++ org_name ++ ". Check " ++ sQuote,
        sQuote ++ ".", ?_⟩
      simp only [missingCredsMsg, joinAnd, hu, hp, if_true, if_false,
        Bool.false_eq_true, eq_self_iff_true, List.cons_append, List.nil_append,
        List.append_nil, List.singleton_append, String.append_assoc]
  · intro hu
    by_cases hp : pyTruthy? cfg.password_env
    · refine ⟨"Missing credentials for endpoint " ++ org_name ++ ". Check ",
        " and " ++ sQuote ++ cfg.password_env.getD "" ++ sQuote ++ ".", ?_⟩
      simp only [missingCredsMsg, joinAnd, hu, hp, if_true, if_false,
        Bool.false_eq_true, eq_self_iff_true, List.cons_append, List.nil_append,
        List.append_nil, List.singleton_append, String.append_assoc]
    · refine ⟨"Missing credentials for endpoint " ++ org_name ++ ". Check ",
        ".", ?_⟩
      simp only [missingCredsMsg, joinAnd, hu, hp, if_true, if_false,
        Bool.false_eq_true, eq_self_iff_true, List.cons_append, List.nil_append,
        List.append_nil, List.singleton_append, String.append_assoc]
  · intro hp
    by_cases hu : pyTruthy? cfg.username_env
    · refine ⟨"Missing credentials for endpoint " ++ org_name ++ ". Check " ++
        sQuote ++ cfg.username_env.getD "" ++ sQuote ++ " and " ++ sQuote,
        sQuote ++ ".", ?_⟩
      simp only [missingCredsMsg, joinAnd, hu, hp, if_true, if_false,
        Bool.false_eq_true, eq_self_iff_true, List.cons_append, List.nil_append,
        List.append_nil, List.singleton_append, String.append_assoc]
    · refine ⟨"Missing credentials for endpoint " ++ org_name ++ ". Check " ++
        sQuote ++ "username" ++ sQuote ++ " in endpoints_config.json" ++ " and " ++ sQuote,
        sQuote ++ ".", ?_⟩
      simp only [missingCredsMsg, joinAnd, hu, hp, if_true, if_false,
        Bool.false_eq_true, eq_self_iff_true, List.cons_append, List.nil_append,
        List.append_nil, List.singleton_append, String.append_assoc]
  · intro queries fileContents query_id qc hq eu
    refine ⟨(resolveTargets eu qc.allowed_endpoints).foldl
      (fun results org => pyDictSet results org
        (endpointResult endpoints env net (fileContents qc.query_file) org)) [],
      ?_, ?_⟩
    · unfold run_routine_query
      rw [hq]
    · intro e he
      rw [foldl_pyDictSet_lookup]
      simp [he]

/-- Witness for C7: fixture endpoint B has basic auth with both
references set to environment variables that are unset in the fixture
environment. -/
theorem C7_witness :
    eps1.lookup "B" = some epB ∧
    epB.auth_method.getD "none" = "basic" ∧
    pyTruthy? (resolvedPassword epB env1) = false ∧
    ((∀ query, endpointResult eps1 env1 net1 query "B" =
      .obj [("error", .str (missingCredsMsg "B" epB))]) ∧
    executorInvoked eps1 env1 "B" = false ∧
    (∃ pre post, missingCredsMsg "B" epB = pre ++ "B" ++ post) ∧
    (pyTruthy? epB.username_env = true →
      ∃ pre post, missingCredsMsg "B" epB =
        pre ++ epB.username_env.getD "" ++ post) ∧
    (pyTruthy? epB.username_env = false →
      ∃ pre post, missingCredsMsg "B" epB =
        pre ++ (sQuote ++ "username" ++ sQuote ++ " in endpoints_config.json") ++ post) ∧
    (pyTruthy? epB.password_env = true →
      ∃ pre post, missingCredsMsg "B" epB =
        pre ++ epB.password_env.getD "" ++ post) ∧
    (∀ (queries : List (String × QueryCfg)) (fileContents : String → String)
        (query_id : String) (qc : QueryCfg),
      queries.lookup query_id = some qc →
      ∀ eu, ∃ results,
        run_routine_query queries eps1 env1 net1 fileContents query_id eu =
          .ok results ∧
        ∀ e ∈ resolveTargets eu qc.allowed_endpoints,
          results.lookup e = some (endpointResult eps1 env1 net1
            (fileContents qc.query_file) e))) :=
  ⟨rfl, rfl, rfl,
   C7_missing_credentials eps1 env1 net1 "B" epB rfl rfl (.inr rfl)⟩

/-- Counterexample to C4 as stated: on this input map the single row
has both fields, but its group field is a dict without a `"value"`
member, so `row[group_var]["value"]` raises `KeyError` — the merge
aborts instead of skipping the row. -/
theorem C4_counterexample :
    merge_count_results [("A", badGroupFieldEntry)] "country" =
      .error (.keyError "value") := rfl

/-- C4 (amended): on maps whose endpoint entries are errors, non-dicts
or structurally well-formed result structures, `merge_count_results`
never raises — rows with missing fields or unparseable counts are
skipped — and a row with a valid count of 0 still produces a row for
its key. -/
theorem C4_no_raise_on_wf :
    (∀ (m : List (String × JValue)) (gv : String),
      (∀ p ∈ m, wfEntry gv p.2 = true) →
      ∃ df, merge_count_results m gv = .ok df) ∧
    merge_count_results [("A", zeroCountResult)] "country" =
      .ok ⟨["country", "total_count"], [(.str "X", 0)]⟩ ∧
    merge_count_results [("A", mixedRowsResult)] "country" =
      .ok ⟨["country", "total_count"], [(.str "NL", 3)]⟩ := by
  refine ⟨?_, rfl, rfl⟩
  intro m gv hwf
  obtain ⟨css, hcss, _, _⟩ := entriesDenote_wf gv m hwf
  rw [merge_char, hcss]
  exact ⟨_, rfl⟩

/-- Witness for the amended C4 on the zero-count map. -/
theorem C4_witness :
    (∀ p ∈ [("A", zeroCountResult)], wfEntry "country" p.2 = true) ∧
    ∃ df, merge_count_results [("A", zeroCountResult)] "country" = .ok df := by
  have hwf : ∀ p ∈ [("A", zeroCountResult)], wfEntry "country" p.2 = true := by
    intro p hp
    rw [List.mem_singleton.mp hp]
    rfl
  exact ⟨hwf, C4_no_raise_on_wf.1 _ "country" hwf⟩

/-- Counterexample to C2 as stated: endpoint B:s entry is neither an
error nor well-formed (`results` is an integer), and instead of
contributing nothing it makes the whole merge raise `AttributeError`,
so no table with A:s row is produced. -/
theorem C2_counterexample :
    merge_count_results [("A", resultA), ("B", badResultsEntry)] "country" =
      .error .attributeError := rfl

/-- C2 (amended): on maps whose endpoint entries are errors, non-dicts
or structurally well-formed result structures, the merged table has one
row per distinct observed group key, whose total is the sum of the
parseable counts for that key over the well-formed non-error entries
(error entries contribute nothing); and the two concrete scenarios
merge to NL 5 / BE 1, and to NL 3 only when B errors. -/
theorem C2_merge_totals :
    (∀ (m : List (String × JValue)) (gv : String),
      (∀ p ∈ m, wfEntry gv p.2 = true) →
      ∃ df, merge_count_results m gv = .ok df ∧
        (df.rows.map Prod.fst).Nodup ∧
        (∀ kn ∈ df.rows, ∃ k : String, kn.1 = PyKey.str k) ∧
        (∀ k : String, df.rows.lookup (PyKey.str k) = spec_mapTotal gv k m)) ∧
    merge_count_results scenario1 "country" =
      .ok ⟨["country", "total_count"], [(.str "NL", 5), (.str "BE", 1)]⟩ ∧
    merge_count_results scenario2 "country" =
      .ok ⟨["country", "total_count"], [(.str "NL", 3)]⟩ := by
  refine ⟨?_, rfl, rfl⟩
  intro m gv hwf
  obtain ⟨css, hcss, htot, hkeys⟩ := entriesDenote_wf gv m hwf
  rw [merge_char, hcss]
  refine ⟨⟨["country", "total_count"], applyContribs [] css.flatten⟩, rfl, ?_, ?_, ?_⟩
  · exact applyContribs_keys_nodup _ [] (by simp)
  · intro kn hkn
    have hx := applyContribs_keys_subset css.flatten [] kn.1
      (List.mem_map.mpr ⟨kn, hkn, rfl⟩)
    rcases hx with hx | hx
    · simp at hx
    · rcases List.mem_map.mp hx with ⟨kn', hkn', he⟩
      rcases List.mem_flatten.mp hkn' with ⟨cs, hcs, hkn2⟩
      obtain ⟨k, hk⟩ := hkeys cs hcs kn' hkn2
      exact ⟨k, he ▸ hk⟩
  · intro k
    rw [applyContribs_lookup]
    simp only [List.lookup_nil, oadd_none_left]
    exact htot k

/-- Witness for the amended C2 on the first scenario. -/
theorem C2_witness :
    (∀ p ∈ scenario1, wfEntry "country" p.2 = true) ∧
    ∃ df, merge_count_results scenario1 "country" = .ok df ∧
      (df.rows.map Prod.fst).Nodup ∧
      (∀ kn ∈ df.rows, ∃ k : String, kn.1 = PyKey.str k) ∧
      (∀ k : String, df.rows.lookup (PyKey.str k) =
        spec_mapTotal "country" k scenario1) := by
  have hwf : ∀ p ∈ scenario1, wfEntry "country" p.2 = true := by
    intro p hp
    rcases List.mem_cons.mp hp with h | h
    · rw [h]
      rfl
    · rw [List.mem_singleton.mp h]
      rfl
  exact ⟨hwf, C2_merge_totals.1 scenario1 "country" hwf⟩

/-- C9: `merge_count_results` is order-independent over endpoint
entries — permuting the input map preserves mergeability, and the
resulting tables agree on every key (same keys, same summed totals,
keys unique in both). -/
theorem C9_order_independence (m1 m2 : List (String × JValue)) (gv : String)
    (hperm : m1.Perm m2) :
    ((∃ df, merge_count_results m1 gv = .ok df) ↔
      (∃ df, merge_count_results m2 gv = .ok df)) ∧
    (∀ df1 df2, merge_count_results m1 gv = .ok df1 →
      merge_count_results m2 gv = .ok df2 →
      df1.columns = df2.columns ∧
      (df1.rows.map Prod.fst).Nodup ∧
      (df2.rows.map Prod.fst).Nodup ∧
      (∀ k : PyKey, df1.rows.lookup k = df2.rows.lookup k)) := by
  have htrans : ∀ (ma mb : List (String × JValue)), ma.Perm mb →
      (∃ df, merge_count_results ma gv = .ok df) →
      ∃ df, merge_count_results mb gv = .ok df := by
    intro ma mb hp ⟨df, hdf⟩
    rw [merge_char] at hdf
    cases hd : entriesDenote gv ma with
    | error e => rw [hd] at hdf; simp [Except.map] at hdf
    | ok css =>
      have hall := entriesDenote_all_of_ok gv ma css hd
      obtain ⟨css2, hcss2⟩ := entriesDenote_ok_of_all gv mb
        (fun p hp2 => hall p (hp.mem_iff.mpr hp2))
      refine ⟨⟨["country", "total_count"], applyContribs [] css2.flatten⟩, ?_⟩
      rw [merge_char, hcss2]
      rfl
  refine ⟨⟨htrans m1 m2 hperm, htrans m2 m1 hperm.symm⟩, ?_⟩
  intro df1 df2 h1 h2
  rw [merge_char] at h1 h2
  cases hd1 : entriesDenote gv m1 with
  | error e => rw [hd1] at h1; simp [Except.map] at h1
  | ok css1 =>
    cases hd2 : entriesDenote gv m2 with
    | error e => rw [hd2] at h2; simp [Except.map] at h2
    | ok css2 =>
      rw [hd1] at h1
      rw [hd2] at h2
      simp only [Except.map, Except.ok.injEq] at h1 h2
      subst h1
      subst h2
      refine ⟨rfl, applyContribs_keys_nodup _ [] (by simp),
        applyContribs_keys_nodup _ [] (by simp), ?_⟩
      intro k
      rw [applyContribs_lookup, applyContribs_lookup,
        entriesDenote_total gv m1 css1 hd1 k,
        entriesDenote_total gv m2 css2 hd2 k,
        foldr_oadd_perm (fun p => entryTotalD gv k p.2) hperm]

/-- Witness for C9: the first scenario and its reversal merge to the
same table. -/
theorem C9_witness :
    scenario1.Perm scenario1rev ∧
    merge_count_results scenario1 "country" =
      .ok ⟨["country", "total_count"], [(.str "NL", 5), (.str "BE", 1)]⟩ ∧
    merge_count_results scenario1rev "country" =
      .ok ⟨["country", "total_count"], [(.str "NL", 5), (.str "BE", 1)]⟩ ∧
    ((⟨["country", "total_count"], [(.str "NL", 5), (.str "BE", 1)]⟩ :
        DataFrame).columns =
      (⟨["country", "total_count"], [(.str "NL", 5), (.str "BE", 1)]⟩ :
        DataFrame).columns ∧
      ((⟨["country", "total_count"], [(.str "NL", 5), (.str "BE", 1)]⟩ :
        DataFrame).rows.map Prod.fst).Nodup ∧
      ((⟨["country", "total_count"], [(.str "NL", 5), (.str "BE", 1)]⟩ :
        DataFrame).rows.map Prod.fst).Nodup ∧
      (∀ k : PyKey,
        (⟨["country", "total_count"], [(.str "NL", 5), (.str "BE", 1)]⟩ :
          DataFrame).rows.lookup k =
        (⟨["country", "total_count"], [(.str "NL", 5), (.str "BE", 1)]⟩ :
          DataFrame).rows.lookup k)) := by
  have hperm : scenario1.Perm scenario1rev :=
    List.Perm.swap ("B", resultB) ("A", resultA) []
  exact ⟨hperm, rfl, rfl,
    (C9_order_independence scenario1 scenario1rev "country" hperm).2 _ _ rfl rfl⟩

end FieldLab
